import Mathlib

set_option linter.unusedVariables false

/-!
# Verification of the `lite_proxy` caching layer

A shallow embedding of `src/backend/lite_proxy.py`, the caching layer placed
in front of a text-completion backend, together with proofs and refutations
of the specified properties.

The embedding models:

* `hash_prompt` — SHA-256 over the Python string serialization of
  `(messages, temperature)` (lines 20–23 of the source), with SHA-256
  implemented in full over byte lists (`sha256Hex`);
* the SQLite `cache` table (`hash TEXT PRIMARY KEY, response TEXT,
  timestamp REAL`) as a list of rows with `SELECT`-by-key and
  `INSERT OR REPLACE` operations;
* `cached_completion` (lines 25–58) as a pure function from the request, the
  prior cache state and the backend's behaviour to a run result recording the
  final cache state, the log of store writes, the backend calls made, and the
  outcome delivered to the caller.

Modelling decisions, recorded once here:

* `temperature` is modelled by its Python decimal rendering `str(temperature)`
  (a `String`), since only that rendering enters the hash and the backend call;
* `time.time()` is modelled as an externally supplied `Nat` tick;
* Python's `return v` statements inside `cached_completion` are modelled as
  delivering `v` to the caller (as evidently intended; CPython as written
  rejects a valued `return` inside an async generator at compile time);
* backend behaviour and store-write success are inputs (`BackendEnv`), since
  they are external effects.
-/

/-! ## SHA-256 over byte lists

A faithful executable SHA-256 (FIPS 180-4), words as `Nat` reduced mod `2^32`.
-/

/-- 32-bit modular addition. -/
def add32 (a b : Nat) : Nat := (a + b) % 4294967296

/-- Rotate a 32-bit word right by `n`. -/
def rotr32 (n x : Nat) : Nat := ((x >>> n) ||| (x <<< (32 - n))) % 4294967296

/-- 32-bit bitwise complement (inputs are kept below `2^32`). -/
def not32 (x : Nat) : Nat := 4294967295 - x

/-- SHA-256 `Ch(x,y,z) = (x ∧ y) ⊕ (¬x ∧ z)`. -/
def ch32 (x y z : Nat) : Nat := (x &&& y) ^^^ (not32 x &&& z)

/-- SHA-256 `Maj(x,y,z)`. -/
def maj32 (x y z : Nat) : Nat := (x &&& y) ^^^ (x &&& z) ^^^ (y &&& z)

/-- SHA-256 big sigma 0. -/
def bigS0 (x : Nat) : Nat := rotr32 2 x ^^^ rotr32 13 x ^^^ rotr32 22 x

/-- SHA-256 big sigma 1. -/
def bigS1 (x : Nat) : Nat := rotr32 6 x ^^^ rotr32 11 x ^^^ rotr32 25 x

/-- SHA-256 small sigma 0. -/
def smallS0 (x : Nat) : Nat := rotr32 7 x ^^^ rotr32 18 x ^^^ (x >>> 3)

/-- SHA-256 small sigma 1. -/
def smallS1 (x : Nat) : Nat := rotr32 17 x ^^^ rotr32 19 x ^^^ (x >>> 10)

/-- The 64 SHA-256 round constants, in decimal. -/
def sha256K : List Nat :=
  [1116352408, 1899447441, 3049323471, 3921009573, 961987163,
   1508970993, 2453635748, 2870763221, 3624381080, 310598401,
   607225278, 1426881987, 1925078388, 2162078206, 2614888103,
   3248222580, 3835390401, 4022224774, 264347078, 604807628,
   770255983, 1249150122, 1555081692, 1996064986, 2554220882,
   2821834349, 2952996808, 3210313671, 3336571891, 3584528711,
   113926993, 338241895, 666307205, 773529912, 1294757372,
   1396182291, 1695183700, 1986661051, 2177026350, 2456956037,
   2730485921, 2820302411, 3259730800, 3345764771, 3516065817,
   3600352804, 4094571909, 275423344, 430227734, 506948616,
   659060556, 883997877, 958139571, 1322822218, 1537002063,
   1747873779, 1955562222, 2024104815, 2227730452, 2361852424,
   2428436474, 2756734187, 3204031479, 3329325298]

/-- The SHA-256 initial hash value, in decimal. -/
def sha256H0 : List Nat :=
  [1779033703, 3144134277, 1013904242, 2773480762,
   1359893119, 2600822924, 528734635, 1541459225]

/-- Big-endian 64-bit encoding of a bit length, as 8 bytes. -/
def be64 (n : Nat) : List Nat :=
  [(n >>> 56) &&& 255, (n >>> 48) &&& 255, (n >>> 40) &&& 255,
   (n >>> 32) &&& 255, (n >>> 24) &&& 255, (n >>> 16) &&& 255,
   (n >>> 8) &&& 255, n &&& 255]

/-- SHA-256 padding: append `0x80`, zeros to 56 mod 64, then the bit length. -/
def sha256Pad (msg : List Nat) : List Nat :=
  let z := (120 - ((msg.length + 1) % 64)) % 64
  msg ++ 0x80 :: List.replicate z 0 ++ be64 (8 * msg.length)

/-- Group 64 bytes into 16 big-endian 32-bit words. -/
def bytesToWords : List Nat → List Nat
  | b0 :: b1 :: b2 :: b3 :: rest =>
      ((((b0 <<< 8) ||| b1) <<< 8 ||| b2) <<< 8 ||| b3) :: bytesToWords rest
  | _ => []

/-- Split a byte list into 64-byte blocks. -/
def chunks64 (l : List Nat) : List (List Nat) :=
  if h : l = [] then [] else l.take 64 :: chunks64 (l.drop 64)
termination_by l.length
decreasing_by
  have hl : 0 < l.length := List.length_pos.mpr h
  simp
  omega

/-- Extend 16 message-schedule words to 64. -/
def sha256Schedule (m : List Nat) : List Nat :=
  (List.range' 16 48).foldl
    (fun w i =>
      w ++ [add32 (add32 (smallS1 (w.getD (i - 2) 0)) (w.getD (i - 7) 0))
              (add32 (smallS0 (w.getD (i - 15) 0)) (w.getD (i - 16) 0))])
    m

/-- One SHA-256 compression round on the 8-word working state. -/
def sha256Round (kw : Nat × Nat) (s : List Nat) : List Nat :=
  match s with
  | [a, b, c, d, e, f, g, h] =>
      let t1 := add32 h (add32 (bigS1 e) (add32 (ch32 e f g) (add32 kw.1 kw.2)))
      let t2 := add32 (bigS0 a) (maj32 a b c)
      [add32 t1 t2, a, b, c, add32 d t1, e, f, g]
  | s => s

/-- Compress one 16-word block into the running hash state. -/
def sha256Compress (st : List Nat) (block : List Nat) : List Nat :=
  let w := sha256Schedule block
  let fin := (sha256K.zip w).foldl (fun s kw => sha256Round kw s) st
  (st.zip fin).map (fun p => add32 p.1 p.2)

/-- SHA-256 digest of a byte list, as 8 words. -/
def sha256Words (msg : List Nat) : List Nat :=
  (chunks64 (sha256Pad msg)).foldl (fun st b => sha256Compress st (bytesToWords b)) sha256H0

/-- Lowercase hex digit. -/
def hexDigit (n : Nat) : Char :=
  if n < 10 then Char.ofNat (48 + n) else Char.ofNat (87 + n)

/-- A 32-bit word as 8 lowercase hex characters. -/
def wordHex (w : Nat) : List Char :=
  [hexDigit ((w >>> 28) &&& 15), hexDigit ((w >>> 24) &&& 15),
   hexDigit ((w >>> 20) &&& 15), hexDigit ((w >>> 16) &&& 15),
   hexDigit ((w >>> 12) &&& 15), hexDigit ((w >>> 8) &&& 15),
   hexDigit ((w >>> 4) &&& 15), hexDigit (w &&& 15)]

/-- `hashlib.sha256(bytes).hexdigest()`: the 64-character lowercase hex digest. -/
def sha256Hex (msg : List Nat) : String :=
  (((sha256Words msg).map wordHex).flatten).asString

/-! ## Python string serialization

`hash_prompt` hashes `str(messages) + str(temperature)` encoded as UTF-8.
-/

/-- UTF-8 encoding of one character (`str.encode()` on its code point). -/
def utf8Char (c : Char) : List Nat :=
  let n := c.toNat
  if n < 128 then [n]
  else if n < 2048 then [192 ||| (n >>> 6), 128 ||| (n &&& 63)]
  else if n < 65536 then
    [224 ||| (n >>> 12), 128 ||| ((n >>> 6) &&& 63), 128 ||| (n &&& 63)]
  else
    [240 ||| (n >>> 18), 128 ||| ((n >>> 12) &&& 63),
     128 ||| ((n >>> 6) &&& 63), 128 ||| (n &&& 63)]

/-- `s.encode()`: UTF-8 bytes of a string. -/
def utf8 (s : String) : List Nat := (s.data.map utf8Char).flatten

/-- One chat message, the `{role, content}` pair of the request. -/
structure Message where
  role : String
  content : String
deriving DecidableEq, Repr

/-- Python `repr` escaping of one character, given the chosen quote. -/
def pyEscape (q : Char) (c : Char) : List Char :=
  if c = '\\' then ['\\', '\\']
  else if c = q then ['\\', q]
  else if c = '\n' then ['\\', 'n']
  else if c = '\r' then ['\\', 'r']
  else if c = '\t' then ['\\', 't']
  else if c.toNat < 32 ∨ c.toNat = 127 then
    ['\\', 'x', hexDigit (c.toNat >>> 4), hexDigit (c.toNat &&& 15)]
  else [c]

/-- Python `repr` of a string: single quotes, switching to double quotes when
the text holds a single quote but no double quote (printable non-ASCII kept
literal, as CPython does). -/
def pyRepr (s : String) : String :=
  let q : Char := if s.data.contains '\'' ∧ ¬ s.data.contains '"' then '"' else '\''
  (q :: (s.data.map (pyEscape q)).flatten ++ [q]).asString

/-- Python `str` of one message dict, keys in `role`, `content` insertion
order: `\x7b'role': repr(role), 'content': repr(content)\x7d`. -/
def strMessage (m : Message) : String :=
  "\x7b'role': " ++ pyRepr m.role ++ ", 'content': " ++ pyRepr m.content ++ "\x7d"

/-- Python `str` of the message list. -/
def strMessages (ms : List Message) : String :=
  "[" ++ String.intercalate ", " (ms.map strMessage) ++ "]"

/-- Source lines 20–23: `hash_prompt(messages, temperature)` — SHA-256 hex
digest of `str(messages) + str(temperature)`. The temperature argument is its
Python decimal rendering. -/
def hash_prompt (messages : List Message) (temperature : String) : String :=
  sha256Hex (utf8 (strMessages messages ++ temperature))

/-! ## The SQLite `cache` table

Source lines 13–18: `cache (hash TEXT PRIMARY KEY, response TEXT,
timestamp REAL)`. A row list models the table; the primary key makes at most
one row per hash, which `INSERT OR REPLACE` maintains by deleting the
conflicting row before inserting.
-/

/-- One row of the `cache` table. -/
structure CacheRow where
  hash : String
  response : String
  timestamp : Nat
deriving DecidableEq, Repr

/-- The `cache` table state. -/
abbrev Store := List CacheRow

/-- Source lines 28–29: `SELECT response FROM cache WHERE hash=?` followed by
`fetchone()` — the response of the first row with the given hash, if any. -/
def selectResponse (s : Store) (h : String) : Option String :=
  ((s : List CacheRow).find? (fun r => r.hash == h)).map (fun r => r.response)

/-- Source lines 54–56: `INSERT OR REPLACE INTO cache` — SQLite deletes any
row conflicting on the primary key, then inserts the new row. -/
def insertOrReplace (s : Store) (h resp : String) (t : Nat) : Store :=
  (s : List CacheRow).filter (fun r => r.hash ≠ h) ++ [⟨h, resp, t⟩]

/-! ## The coordinator `cached_completion`

Source lines 25–58, as explicit state passing. External effects are inputs:
`BackendEnv` supplies what `litellm.acompletion` would produce for the single
backend call of this request (one answer for a streaming call, one for a
non-streaming call, each possibly an error), whether the SQLite write
commits, and the `time.time()` value used for the stored timestamp.
-/

/-- One streamed event `\x7b'choices': [\x7b'delta': \x7b'content': ...\x7d\x7d]\x7d`;
only the delta content varies. -/
structure ChunkEvent where
  deltaContent : String
deriving DecidableEq, Repr

/-- The arguments of one `litellm.acompletion(...)` invocation. -/
structure BackendCall where
  model : String
  messages : List Message
  temperature : String
  stream : Bool
deriving DecidableEq, Repr

/-- External behaviour for the run: the backend's reply to a streaming call
(`chunks`) and to a non-streaming call (`full`), each either an error message
or a result; whether the cache write commits; the write timestamp. -/
structure BackendEnv where
  full : Except String String
  chunks : Except String (List ChunkEvent)
  storeOk : Bool
  now : Nat

/-- What the caller observes: a full response object
`\x7b'choices': [\x7b'message': \x7b'content': c\x7d\x7d]\x7d`, a finite stream of chunk
events, a propagated backend exception, or a propagated store exception. -/
inductive Outcome where
  | response (content : String)
  | stream (events : List ChunkEvent)
  | raisedBackend (msg : String)
  | raisedStore
deriving DecidableEq, Repr

/-- Everything observable about one `cached_completion` run: the final table,
the log of committed `INSERT OR REPLACE` writes, the backend invocations
made, and the outcome delivered to the caller. -/
structure RunResult where
  store : Store
  writes : List CacheRow
  backendCalls : List BackendCall
  outcome : Outcome
deriving DecidableEq, Repr

/-- Python `str.split(sep)` with a one-character separator, over characters:
split at every occurrence of `sep`, keeping empty fragments (`''.split(' ')`
is `['']`, `'a  b'.split(' ')` is `['a', '', 'b']`). -/
def pySplitChar (sep : Char) : List Char → List (List Char)
  | [] => [[]]
  | c :: cs =>
    if c = sep then [] :: pySplitChar sep cs
    else
      match pySplitChar sep cs with
      | [] => [[c]]
      | p :: ps => (c :: p) :: ps

/-- Python `full_resp.split(' ')` over strings. -/
def pySplitSpace (s : String) : List String :=
  (pySplitChar ' ' s.data).map List.asString

/-- Source lines 33–37: streaming replay of a cached full response —
`for chunk in full_resp.split(' '): yield \x7b...'content': chunk + ' '...\x7d`. -/
def replayChunks (full_resp : String) : List ChunkEvent :=
  (pySplitSpace full_resp).map (fun chunk => ⟨chunk ++ " "⟩)

/-- Source lines 25–58: `cached_completion(messages, model, temperature,
stream)`. Looks the fingerprint up; on a hit replays or returns the cached
text with no backend call; on a miss invokes the backend with the hardcoded
model `"ollama/llama3.2:1b"`, and — only on the non-streaming path — commits
one `INSERT OR REPLACE` before returning the fresh content. Exceptions from
the backend call or the store write propagate (there is no handler). -/
def cached_completion (env : BackendEnv) (store : Store)
    (messages : List Message) (model : String) (temperature : String)
    (stream : Bool) : RunResult :=
  let cache_hash := hash_prompt messages temperature
  match selectResponse store cache_hash with
  | some cached =>
      if stream then
        ⟨store, [], [], Outcome.stream (replayChunks cached)⟩
      else
        ⟨store, [], [], Outcome.response cached⟩
  | none =>
      let call : BackendCall := ⟨"ollama/llama3.2:1b", messages, temperature, stream⟩
      if stream then
        match env.chunks with
        | Except.error e => ⟨store, [], [call], Outcome.raisedBackend e⟩
        | Except.ok cs => ⟨store, [], [call], Outcome.stream cs⟩
      else
        match env.full with
        | Except.error e => ⟨store, [], [call], Outcome.raisedBackend e⟩
        | Except.ok content =>
            if env.storeOk then
              ⟨insertOrReplace store cache_hash content env.now,
               [⟨cache_hash, content, env.now⟩], [call],
               Outcome.response content⟩
            else
              ⟨store, [], [call], Outcome.raisedStore⟩

/-- Source line 27 inside `cached_completion`: the cache key computed for a
request is `hash_prompt(messages, temperature)` — the `model` and `stream`
arguments of the request are in scope but do not enter the key. -/
def requestCacheKey (messages : List Message) (model : String)
    (temperature : String) (stream : Bool) : String :=
  hash_prompt messages temperature

/-! ## Vocabulary of the stated properties -/

/-- What a caller that just concatenates deltas receives from a chunk
sequence. -/
def concatDeltas (events : List ChunkEvent) : String :=
  String.join (events.map (fun e => e.deltaContent))

/-- Strip a single trailing delimiter space, when present (the stripping
operation the stream-equivalence property speaks of). -/
def stripTrailingSpace (s : String) : String :=
  if s.data.getLast? = some ' ' then ⟨s.data.dropLast⟩ else s

/-- The reconstruction exactly as the stream-equivalence claim words it:
every chunk has its single trailing delimiter space stripped, and the results
are concatenated. -/
def strippedConcat (events : List ChunkEvent) : String :=
  String.join (events.map (fun e => stripTrailingSpace e.deltaContent))

/-! ## Concrete fixtures for witnesses and counterexamples -/

/-- The spec's running example request body: one user message `hi`. -/
def msgs0 : List Message := [⟨"user", "hi"⟩]

/-- A healthy environment: backend answers `hello there` (or one live chunk
`live `), the store commits, the clock reads 5. -/
def env0 : BackendEnv := ⟨Except.ok "hello there", Except.ok [⟨"live "⟩], true, 5⟩

/-- An environment whose backend call raises `BackendError`. -/
def envFail : BackendEnv :=
  ⟨Except.error "BackendError", Except.error "BackendError", true, 5⟩

/-- An environment whose backend succeeds but whose store write raises. -/
def envStoreFail : BackendEnv :=
  ⟨Except.ok "hello there", Except.ok [⟨"live "⟩], false, 5⟩

/-- A table already holding `hello there` under the fingerprint of `msgs0`
at temperature `0.7`. -/
def storeHit : Store := [⟨hash_prompt msgs0 "0.7", "hello there", 3⟩]

/-- A table holding the empty response text under that same fingerprint. -/
def storeEmpty : Store := [⟨hash_prompt msgs0 "0.7", "", 3⟩]

/-! ## Helper lemmas -/

/-- Python `split` always returns at least one fragment. -/
theorem pySplitChar_ne_nil (sep : Char) (l : List Char) : pySplitChar sep l ≠ [] := by
  induction l with
  | nil => simp [pySplitChar]
  | cons c cs ih =>
    simp only [pySplitChar]
    split
    · simp
    · split
      · simp
      · simp

/-- Re-appending the separator to every fragment and flattening restores the
text plus one trailing separator. -/
theorem flatten_pySplitChar (sep : Char) (l : List Char) :
    ((pySplitChar sep l).map (fun p => p ++ [sep])).flatten = l ++ [sep] := by
  induction l with
  | nil => simp [pySplitChar]
  | cons c cs ih =>
    by_cases hc : c = sep
    · subst hc
      simp [pySplitChar, ih]
    · simp only [pySplitChar, if_neg hc]
      cases hps : pySplitChar sep cs with
      | nil => exact absurd hps (pySplitChar_ne_nil sep cs)
      | cons p ps =>
        rw [hps] at ih
        simp only [List.map_cons, List.flatten_cons] at ih ⊢
        simp only [List.cons_append, List.append_assoc] at ih ⊢
        rw [ih]

/-- Folding string append from an accumulator, at the character level. -/
theorem data_foldl_append (l : List String) (a : String) :
    (l.foldl (· ++ ·) a).data = a.data ++ (l.map String.data).flatten := by
  induction l generalizing a with
  | nil => simp
  | cons x xs ih =>
    simp only [List.foldl_cons, ih, List.map_cons, List.flatten_cons]
    simp [String.data_append]

/-- `String.join` at the character level. -/
theorem data_join (l : List String) :
    (String.join l).data = (l.map String.data).flatten := by
  simp [String.join, data_foldl_append]

/-- `List.asString` holds exactly its characters. -/
theorem data_asString (l : List Char) : (List.asString l).data = l := rfl

/-- A caller that concatenates the deltas of a replayed cached response
receives the cached text followed by one trailing delimiter space. -/
theorem concatDeltas_replayChunks (s : String) :
    concatDeltas (replayChunks s) = s ++ " " := by
  apply String.ext
  simp only [concatDeltas, replayChunks, pySplitSpace, data_join, String.data_append,
    List.map_map]
  have hfun : (String.data ∘ (fun e : ChunkEvent => e.deltaContent) ∘
      (fun chunk : String => ChunkEvent.mk (chunk ++ " ")) ∘ List.asString) =
      fun p : List Char => p ++ [' '] := by
    funext p
    simp only [Function.comp]
    rw [String.data_append, data_asString]
  rw [hfun]
  exact flatten_pySplitChar ' ' s.data

/-- Stripping the single trailing space undoes appending it. -/
theorem stripTrailingSpace_append_space (s : String) :
    stripTrailingSpace (s ++ " ") = s := by
  have hsp : (" " : String).data = [' '] := rfl
  unfold stripTrailingSpace
  simp [String.data_append, hsp, List.getLast?_concat, List.dropLast_concat]

/-- After an upsert, the rows carrying the written key are exactly the row
just written. -/
theorem filter_insertOrReplace (s : Store) (k v : String) (t : Nat) :
    (insertOrReplace s k v t).filter (fun r => r.hash == k) = [⟨k, v, t⟩] := by
  simp only [insertOrReplace, List.filter_append, List.filter_filter]
  have h1 : (s.filter fun r => r.hash == k && decide (r.hash ≠ k)) = [] := by
    apply List.filter_eq_nil_iff.mpr
    intro r hr
    by_cases hk : r.hash = k <;> simp [hk]
  rw [h1]
  simp

/-- Distinct temperature renderings give distinct pre-hash serializations:
whatever digest follows, the strings fed to it differ. -/
theorem prompt_serialization_inj_temperature (ms : List Message) (t1 t2 : String)
    (h : t1 ≠ t2) : strMessages ms ++ t1 ≠ strMessages ms ++ t2 := by
  intro hc
  apply h
  have := congrArg String.data hc
  simp only [String.data_append] at this
  exact String.ext (List.append_cancel_left this)

/-!
A remark on key sensitivity across all temperatures: distinctness of
`hash_prompt` for every pair of distinct temperature renderings is exactly
injectivity of SHA-256 on the (pairwise distinct, by
`prompt_serialization_inj_temperature`) serialized prompts — a
collision-resistance property of the digest that is neither provable nor
refutable here. What the development establishes is the serialization-level
injectivity feeding the digest.
-/

/-! ## The claims -/

/-- C1, counterexample: the claim is false for streaming misses. On a
streaming cache miss whose backend call succeeds, the caller receives the
live chunk stream, yet `cached_completion` performs zero Store writes — the
streamed text is never accumulated or persisted (source lines 49–51 forward
chunks and fall through without any `INSERT`). -/
theorem C1_counterexample :
    (cached_completion env0 [] msgs0 "gemini-2.5-flash" "0.7" true).outcome =
      Outcome.stream [⟨"live "⟩] ∧
    (cached_completion env0 [] msgs0 "gemini-2.5-flash" "0.7" true).writes = [] ∧
    (cached_completion env0 [] msgs0 "gemini-2.5-flash" "0.7" true).store = [] :=
  ⟨rfl, rfl, rfl⟩

/-- C1, amended: on a *non-streaming* cache miss whose backend call succeeds
and whose write commits, `cached_completion` performs exactly one Store
write, and the stored text equals the exact text returned to the caller; on
a *streaming* miss it performs zero Store writes and forwards the live
chunks unmodified, persisting nothing. -/
theorem C1_miss_persists (env : BackendEnv) (store : Store)
    (messages : List Message) (model temperature content : String)
    (cs : List ChunkEvent)
    (hmiss : selectResponse store (hash_prompt messages temperature) = none)
    (hfull : env.full = Except.ok content)
    (hchunks : env.chunks = Except.ok cs)
    (hok : env.storeOk = true) :
    (cached_completion env store messages model temperature false).writes =
      [⟨hash_prompt messages temperature, content, env.now⟩] ∧
    (cached_completion env store messages model temperature false).outcome =
      Outcome.response content ∧
    (cached_completion env store messages model temperature true).writes = [] ∧
    (cached_completion env store messages model temperature true).outcome =
      Outcome.stream cs := by
  simp [cached_completion, hmiss, hfull, hchunks, hok]

/-- C1, witness: the amended theorem at the spec's running example. -/
theorem C1_miss_persists_witness :
    (selectResponse [] (hash_prompt msgs0 "0.7") = none ∧
     env0.full = Except.ok "hello there" ∧
     env0.chunks = Except.ok [⟨"live "⟩] ∧ env0.storeOk = true) ∧
    ((cached_completion env0 [] msgs0 "gemini-2.5-flash" "0.7" false).writes =
      [⟨hash_prompt msgs0 "0.7", "hello there", 5⟩] ∧
     (cached_completion env0 [] msgs0 "gemini-2.5-flash" "0.7" false).outcome =
      Outcome.response "hello there" ∧
     (cached_completion env0 [] msgs0 "gemini-2.5-flash" "0.7" true).writes = [] ∧
     (cached_completion env0 [] msgs0 "gemini-2.5-flash" "0.7" true).outcome =
      Outcome.stream [⟨"live "⟩]) :=
  ⟨⟨rfl, rfl, rfl, rfl⟩,
   C1_miss_persists env0 [] msgs0 "gemini-2.5-flash" "0.7" "hello there"
     [⟨"live "⟩] rfl rfl rfl rfl⟩

/-- C2, counterexample: the claim is false for the model identifier. A miss
for a request naming model `gemini-2.5-flash` invokes the backend with the
hardcoded model `ollama/llama3.2:1b` (source line 44), not the caller's. -/
theorem C2_counterexample :
    (cached_completion env0 [] msgs0 "gemini-2.5-flash" "0.7" false).backendCalls =
      [⟨"ollama/llama3.2:1b", msgs0, "0.7", false⟩] ∧
    ("ollama/llama3.2:1b" : String) ≠ "gemini-2.5-flash" :=
  ⟨rfl, by decide⟩

/-- C2, amended: on every cache miss the backend is invoked exactly once,
with the caller's messages, temperature and streaming flag preserved, but
with the model identifier replaced by the hardcoded `ollama/llama3.2:1b`,
whatever model the caller named. -/
theorem C2_miss_backend_call (env : BackendEnv) (store : Store)
    (messages : List Message) (model temperature : String) (stream : Bool)
    (hmiss : selectResponse store (hash_prompt messages temperature) = none) :
    (cached_completion env store messages model temperature stream).backendCalls =
      [⟨"ollama/llama3.2:1b", messages, temperature, stream⟩] := by
  cases stream with
  | false =>
    cases hf : env.full with
    | error e => simp [cached_completion, hmiss, hf]
    | ok c => cases hok : env.storeOk <;> simp [cached_completion, hmiss, hf, hok]
  | true =>
    cases hc : env.chunks with
    | error e => simp [cached_completion, hmiss, hc]
    | ok cs => simp [cached_completion, hmiss, hc]

/-- C2, witness: the amended theorem at the spec's running example. -/
theorem C2_miss_backend_call_witness :
    selectResponse [] (hash_prompt msgs0 "0.7") = none ∧
    (cached_completion env0 [] msgs0 "gemini-2.5-flash" "0.7" false).backendCalls =
      [⟨"ollama/llama3.2:1b", msgs0, "0.7", false⟩] :=
  ⟨rfl, C2_miss_backend_call env0 [] msgs0 "gemini-2.5-flash" "0.7" false rfl⟩

/-- C3: on a cache miss whose backend call raises, zero Store writes occur,
the table is exactly what it was before the request, and the backend error
is surfaced to the caller unchanged. -/
theorem C3_backend_failure_isolated (env : BackendEnv) (store : Store)
    (messages : List Message) (model temperature : String) (stream : Bool)
    (e : String)
    (hmiss : selectResponse store (hash_prompt messages temperature) = none)
    (hfail : if stream then env.chunks = Except.error e
             else env.full = Except.error e) :
    (cached_completion env store messages model temperature stream).writes = [] ∧
    (cached_completion env store messages model temperature stream).store = store ∧
    (cached_completion env store messages model temperature stream).outcome =
      Outcome.raisedBackend e := by
  cases stream with
  | false =>
    simp only [Bool.false_eq_true, if_false] at hfail
    simp [cached_completion, hmiss, hfail]
  | true =>
    simp only [if_true] at hfail
    simp [cached_completion, hmiss, hfail]

/-- C3, witness: a simulated backend failure on a streaming miss. -/
theorem C3_backend_failure_isolated_witness :
    (selectResponse [] (hash_prompt msgs0 "0.7") = none ∧
     envFail.chunks = Except.error "BackendError") ∧
    ((cached_completion envFail [] msgs0 "gemini-2.5-flash" "0.7" true).writes = [] ∧
     (cached_completion envFail [] msgs0 "gemini-2.5-flash" "0.7" true).store = [] ∧
     (cached_completion envFail [] msgs0 "gemini-2.5-flash" "0.7" true).outcome =
      Outcome.raisedBackend "BackendError") :=
  ⟨⟨rfl, rfl⟩,
   C3_backend_failure_isolated envFail [] msgs0 "gemini-2.5-flash" "0.7" true
     "BackendError" rfl rfl⟩

/-- C4, counterexample: the claim is false. When the Store write raises on a
non-streaming miss, the exception propagates (source lines 54–56 have no
handler): the caller gets the store error, not the freshly computed response
`hello there` the backend already produced. -/
theorem C4_counterexample :
    (cached_completion envStoreFail [] msgs0 "gemini-2.5-flash" "0.7" false).outcome =
      Outcome.raisedStore ∧
    Outcome.raisedStore ≠ Outcome.response "hello there" :=
  ⟨rfl, by decide⟩

/-- C4, amended: if the Store write fails during a non-streaming miss
resolution, the write failure is fatal to the request — the store exception
propagates to the caller, the freshly computed response is *not* returned,
and the table is left unchanged with no write recorded. -/
theorem C4_store_failure_fatal (env : BackendEnv) (store : Store)
    (messages : List Message) (model temperature content : String)
    (hmiss : selectResponse store (hash_prompt messages temperature) = none)
    (hfull : env.full = Except.ok content)
    (hbad : env.storeOk = false) :
    (cached_completion env store messages model temperature false).outcome =
      Outcome.raisedStore ∧
    (cached_completion env store messages model temperature false).writes = [] ∧
    (cached_completion env store messages model temperature false).store = store := by
  simp [cached_completion, hmiss, hfull, hbad]

/-- C4, witness: the amended theorem at a failing store. -/
theorem C4_store_failure_fatal_witness :
    (selectResponse [] (hash_prompt msgs0 "0.7") = none ∧
     envStoreFail.full = Except.ok "hello there" ∧
     envStoreFail.storeOk = false) ∧
    ((cached_completion envStoreFail [] msgs0 "gemini-2.5-flash" "0.7" false).outcome =
      Outcome.raisedStore ∧
     (cached_completion envStoreFail [] msgs0 "gemini-2.5-flash" "0.7" false).writes = [] ∧
     (cached_completion envStoreFail [] msgs0 "gemini-2.5-flash" "0.7" false).store = []) :=
  ⟨⟨rfl, rfl, rfl⟩,
   C4_store_failure_fatal envStoreFail [] msgs0 "gemini-2.5-flash" "0.7"
     "hello there" rfl rfl rfl⟩

/-- C5, counterexample: the claim is false as stated. Stripping the single
trailing delimiter space from *each* chunk of the replay of `hello there`
and concatenating yields `hellothere`, which drops the interior space and
differs from the original cached text. -/
theorem C5_counterexample :
    strippedConcat (replayChunks "hello there") = "hellothere" ∧
    ("hellothere" : String) ≠ "hello there" :=
  ⟨rfl, by decide⟩

/-- C5, amended: concatenating the delta contents of all ChunkEvents of a
replayed cached response yields the original text followed by exactly one
trailing delimiter space; stripping that single trailing space from the
*concatenation* (not from each chunk) recovers the cached text exactly. -/
theorem C5_stream_equivalence (text : String) :
    concatDeltas (replayChunks text) = text ++ " " ∧
    stripTrailingSpace (concatDeltas (replayChunks text)) = text :=
  ⟨concatDeltas_replayChunks text, by
    rw [concatDeltas_replayChunks text]
    exact stripTrailingSpace_append_space text⟩

/-- C6: a hit makes no backend call, leaves the table untouched, returns the
stored text as a full response object when the caller is not streaming, and
hands it to stream replay when the caller is streaming. -/
theorem C6_hit_short_circuits (env : BackendEnv) (store : Store)
    (messages : List Message) (model temperature : String) (stream : Bool)
    (cached : String)
    (hhit : selectResponse store (hash_prompt messages temperature) = some cached) :
    (cached_completion env store messages model temperature stream).backendCalls = [] ∧
    (cached_completion env store messages model temperature stream).store = store ∧
    (cached_completion env store messages model temperature stream).writes = [] ∧
    (cached_completion env store messages model temperature false).outcome =
      Outcome.response cached ∧
    (cached_completion env store messages model temperature true).outcome =
      Outcome.stream (replayChunks cached) := by
  cases stream <;> simp [cached_completion, hhit]

/-- C6, witness: after `hello there` is cached under the fingerprint of the
running example, resolving again hits, calls no backend, and replays
`hello ` then `there `. -/
theorem C6_hit_short_circuits_witness :
    (selectResponse storeHit (hash_prompt msgs0 "0.7") = some "hello there") ∧
    ((cached_completion env0 storeHit msgs0 "gemini-2.5-flash" "0.7" false).backendCalls = [] ∧
     (cached_completion env0 storeHit msgs0 "gemini-2.5-flash" "0.7" false).store = storeHit ∧
     (cached_completion env0 storeHit msgs0 "gemini-2.5-flash" "0.7" false).writes = [] ∧
     (cached_completion env0 storeHit msgs0 "gemini-2.5-flash" "0.7" false).outcome =
      Outcome.response "hello there" ∧
     (cached_completion env0 storeHit msgs0 "gemini-2.5-flash" "0.7" true).outcome =
      Outcome.stream [⟨"hello "⟩, ⟨"there "⟩]) :=
  ⟨by simp [storeHit, selectResponse],
   C6_hit_short_circuits env0 storeHit msgs0 "gemini-2.5-flash" "0.7" false
     "hello there" (by simp [storeHit, selectResponse])⟩

/-- C7: the cache key computed for a request is insensitive to both the
streaming flag and the model identifier — and, stream held fixed, the whole
observable run of `cached_completion` is independent of the caller's model. -/
theorem C7_key_ignores_model_and_stream (messages : List Message)
    (temperature : String) (m1 m2 : String) (s1 s2 : Bool)
    (env : BackendEnv) (store : Store) (stream : Bool) :
    requestCacheKey messages m1 temperature s1 =
      requestCacheKey messages m2 temperature s2 ∧
    cached_completion env store messages m1 temperature stream =
      cached_completion env store messages m2 temperature stream :=
  ⟨rfl, rfl⟩

/-- C9: `put(k, v, t1); put(k, v, t2)` leaves exactly one entry for `k`, and
that entry carries value `v` and timestamp `t2` — the later write replaces
the earlier entry rather than appending. -/
theorem C9_store_upsert_idempotent (s : Store) (k v : String) (t1 t2 : Nat) :
    (insertOrReplace (insertOrReplace s k v t1) k v t2).filter
      (fun r => r.hash == k) = [⟨k, v, t2⟩] :=
  filter_insertOrReplace (insertOrReplace s k v t1) k v t2

/-- C10: streaming replay of an empty cached response emits exactly one
ChunkEvent whose delta is a single space, so a caller concatenating deltas
receives `" "` rather than the empty string. -/
theorem C10_empty_text_replay (env : BackendEnv) (store : Store)
    (messages : List Message) (model temperature : String)
    (hhit : selectResponse store (hash_prompt messages temperature) = some "") :
    (cached_completion env store messages model temperature true).outcome =
      Outcome.stream [⟨" "⟩] ∧
    replayChunks "" = [⟨" "⟩] ∧
    concatDeltas (replayChunks "") = " " := by
  have h1 : replayChunks "" = [⟨" "⟩] := rfl
  refine ⟨?_, h1, rfl⟩
  simp [cached_completion, hhit, h1]

/-- C10, witness: a table caching the empty text under the running example's
fingerprint replays a single `" "` chunk. -/
theorem C10_empty_text_replay_witness :
    (selectResponse storeEmpty (hash_prompt msgs0 "0.7") = some "") ∧
    ((cached_completion env0 storeEmpty msgs0 "gemini-2.5-flash" "0.7" true).outcome =
      Outcome.stream [⟨" "⟩] ∧
     replayChunks "" = [⟨" "⟩] ∧
     concatDeltas (replayChunks "") = " ") :=
  ⟨by simp [storeEmpty, selectResponse],
   C10_empty_text_replay env0 storeEmpty msgs0 "gemini-2.5-flash" "0.7"
     (by simp [storeEmpty, selectResponse])⟩
